import Mathlib

/-
Verification of the Thesis-Writing-Chatbot repository (src/app.py).

The Python code is shallowly embedded in Lean.  Python strings are modelled
as lists of characters (`PyStr`); external library calls (web search,
json.loads / json.dumps, textstat metrics, the system clock) are modelled as
oracle parameters; `random.choice` is modelled by an arbitrary index-choosing
function, so theorems quantify over every possible random outcome.
-/

/-- A Python string: a sequence of (unicode) characters. -/
abbrev PyStr := List Char

/-- Python `s.split()` with no argument: split on whitespace runs, dropping
empty pieces. -/
def pySplitWs (s : PyStr) : List PyStr :=
  (List.splitOnP (fun c => c.isWhitespace) s).filter (fun w => w ≠ [])

/-- Python `s.lower()` (on the ASCII letters that occur in this program). -/
def pyLower (s : PyStr) : PyStr := s.map Char.toLower

/-- Python `s.lstrip()`. -/
def pyLstrip (s : PyStr) : PyStr := s.dropWhile Char.isWhitespace

/-- Truthiness of Python `s.strip()`: true when the string contains a
non-whitespace character. -/
def pyStripNonempty (s : PyStr) : Bool := s.any (fun c => !c.isWhitespace)

/-- Python `str(n)` for a nonnegative integer. -/
def pyStrOfNat (n : Nat) : PyStr := (Nat.repr n).data

/-- Fuel-driven worker for Python `text.replace(pat, rep)`: scan left to
right, replacing each non-overlapping occurrence of `pat`.  The fuel is an
upper bound on the number of scanning steps; `replaceAll` supplies enough
fuel, and each step consumes at least one character of the text when the
pattern is nonempty. -/
def replaceAllAux (pat rep : PyStr) : Nat → PyStr → PyStr
  | _, [] => []
  | 0, text => text
  | fuel + 1, c :: rest =>
    if pat.isPrefixOf (c :: rest) then
      rep ++ replaceAllAux pat rep fuel (List.drop pat.length (c :: rest))
    else
      c :: replaceAllAux pat rep fuel rest

/-- Python `text.replace(pat, rep)` for a nonempty pattern.  (Python treats
an empty pattern specially; every pattern this program replaces is
nonempty, and for an empty pattern we return the text unchanged.) -/
def replaceAll (pat rep text : PyStr) : PyStr :=
  if pat = [] then text else replaceAllAux pat rep text.length text

/-! ### AcademicResearchTool (src/app.py lines 33-98) -/

/-- Python `AcademicResearchTool._calculate_relevance`. -/
def calculateRelevance (content topic : PyStr) : ℚ :=
  let topic_words := (pySplitWs (pyLower topic)).toFinset
  let content_words := (pySplitWs (pyLower content)).toFinset
  if topic_words = ∅ ∨ content_words = ∅ then 0
  else ((topic_words ∩ content_words).card : ℚ) / (topic_words.card : ℚ)

/-- The five fixed search query templates of `AcademicResearchTool._run`. -/
def searchQueries (topic : PyStr) : List PyStr :=
  [topic ++ " research studies".data,
   topic ++ " academic papers".data,
   topic ++ " recent developments".data,
   topic ++ " methodology".data,
   topic ++ " literature review".data]

/-- One result returned by the `duckduckgo_search` library (fields
`title`, `body`, `href`, with the `.get(..., '')` defaults applied). -/
structure SearchResult where
  title : PyStr
  body : PyStr
  href : PyStr

/-- One entry of the `all_research` list built by
`AcademicResearchTool._run`. -/
structure ResearchEntry where
  query : PyStr
  title : PyStr
  content : PyStr
  url : PyStr
  relevance_score : ℚ

/-- The dictionary appended to `all_research` for one search result. -/
def mkEntry (topic query : PyStr) (r : SearchResult) : ResearchEntry :=
  { query := query
    title := r.title
    content := r.body
    url := r.href
    relevance_score := calculateRelevance r.body topic }

/-- The loop of `AcademicResearchTool._run` over the five queries: each
query is sent to the search oracle with `max_results=6`; a query whose
search raises is skipped (`except ... continue`). -/
def academicResearch_all
    (search : PyStr → Nat → Except PyStr (List SearchResult))
    (topic : PyStr) : List ResearchEntry :=
  (searchQueries topic).foldl
    (fun acc q =>
      match search q 6 with
      | Except.error _ => acc
      | Except.ok results => acc ++ results.map (mkEntry topic q))
    []

/-- Worker for `AcademicResearchTool._remove_duplicates`, carrying the
`seen_urls` set. -/
def removeDupsAux : List PyStr → List ResearchEntry → List ResearchEntry
  | _, [] => []
  | seen, x :: rest =>
    if x.url ∈ seen then removeDupsAux seen rest
    else x :: removeDupsAux (x.url :: seen) rest

/-- Python `AcademicResearchTool._remove_duplicates`. -/
def removeDuplicates (research_list : List ResearchEntry) : List ResearchEntry :=
  removeDupsAux [] research_list

/-- The comparison used by `unique_research.sort(key=..., reverse=True)`:
descending relevance score. -/
def researchSortLe (a b : ResearchEntry) : Bool :=
  decide (b.relevance_score ≤ a.relevance_score)

/-- The list `unique_research[:15]` computed by `AcademicResearchTool._run`
on its success path: deduplicate by URL, sort by relevance score in
non-increasing order, keep the top 15. -/
def academicResearch_entries
    (search : PyStr → Nat → Except PyStr (List SearchResult))
    (topic : PyStr) : List ResearchEntry :=
  (((removeDuplicates (academicResearch_all search topic)).mergeSort
    researchSortLe).take 15)

/-- Python `AcademicResearchTool._run`.  `ctx` models entering
`with DDGS() as ddgs` (the body's only other failure source), and `dumps`
models `json.dumps`. -/
def academicResearch_run
    (ctx : Except PyStr Unit)
    (search : PyStr → Nat → Except PyStr (List SearchResult))
    (dumps : List ResearchEntry → PyStr)
    (topic research_areas : PyStr) : PyStr :=
  match ctx with
  | Except.error e => "Research failed: ".data ++ e
  | Except.ok _ => dumps (academicResearch_entries search topic)

/-! ### HumanizationTool (src/app.py lines 198-267) -/

/-- The eight AI patterns searched for by `HumanizationTool._run`. -/
def aiPatterns : List PyStr :=
  ["It is important to note that".data,
   "This demonstrates that".data,
   "This indicates that".data,
   "As previously mentioned".data,
   "It should be mentioned that".data,
   "This suggests that".data,
   "This implies that".data,
   "It can be concluded that".data]

/-- The eight human alternatives, parallel to `aiPatterns`. -/
def humanAlternatives : List PyStr :=
  ["Notably,".data,
   "This shows".data,
   "This reveals".data,
   "As noted earlier".data,
   "It\x27s worth noting".data,
   "This suggests".data,
   "This implies".data,
   "Therefore,".data]

/-- The five variation phrases. -/
def variations : List PyStr :=
  ["Interestingly,".data,
   "Surprisingly,".data,
   "Remarkably,".data,
   "Significantly,".data,
   "Importantly,".data]

/-- The four personal insight phrases. -/
def personalInsights : List PyStr :=
  ["Based on the available evidence,".data,
   "From the research findings,".data,
   "Considering the data,".data,
   "In light of these results,".data]

/-- Python `random.choice(l)` given the outcome `k` of the random draw:
some element of the nonempty list `l`. -/
def pickFrom (l : List PyStr) (k : Nat) : PyStr :=
  l.getD (k % l.length) []

/-- The replacement loop of `HumanizationTool._run`: apply the eight
pattern replacements in their listed order. -/
def applyReplacements (text : PyStr) : PyStr :=
  (aiPatterns.zip humanAlternatives).foldl
    (fun acc pr => replaceAll pr.1 pr.2 acc) text

/-- The `for i in range(1, len(sentences), 3)` loop of
`HumanizationTool._run`, carrying the running index `i`: every sentence at
an index congruent to 1 mod 3 whose stripped form is nonempty becomes
`" {variation} {sentence.lstrip()}"`. -/
def insertVariationsAux (chooseVar : Nat → Nat) : Nat → List PyStr → List PyStr
  | _, [] => []
  | i, s :: rest =>
    (if i % 3 = 1 ∧ pyStripNonempty s then
      " ".data ++ pickFrom variations (chooseVar i) ++ " ".data ++ pyLstrip s
    else s) :: insertVariationsAux chooseVar (i + 1) rest

/-- The variation-insertion pass of `HumanizationTool._run`. -/
def insertVariations (chooseVar : Nat → Nat) (sentences : List PyStr) : List PyStr :=
  insertVariationsAux chooseVar 0 sentences

/-- Python `HumanizationTool._run` (its try-block body, which cannot
raise).  `chooseVar` and `chooseIns` give the outcomes of the calls to
`random.choice`. -/
def humanizeRun (text : PyStr) (chooseVar : Nat → Nat) (chooseIns : Nat) : PyStr :=
  let sentences := (applyReplacements text).splitOn '.'
  let mutated := insertVariations chooseVar sentences
  let final :=
    if mutated.length > 5 then
      mutated.set 2
        (" ".data ++ pickFrom personalInsights chooseIns ++ " ".data ++
          pyLstrip (mutated.getD 2 []))
    else mutated
  List.intercalate ['.'] final

/-- Python `HumanizationTool._run` as called on a string: the try-block
never raises, so the result is always the humanized text. -/
def humanization_run (text : PyStr) (chooseVar : Nat → Nat) (chooseIns : Nat) : PyStr :=
  humanizeRun text chooseVar chooseIns

/-! ### CitationGeneratorTool (src/app.py lines 100-130) -/

/-- One item of the list decoded by `json.loads(research_data)`, with the
`.get(...)` defaults already applied. -/
structure CitationItem where
  title : PyStr
  url : PyStr

/-- One citation dictionary built by `CitationGeneratorTool._run`. -/
structure Citation where
  id : PyStr
  title : PyStr
  url : PyStr
  domain : PyStr
  apa_citation : PyStr
  in_text : PyStr

/-- The citation built for item `i` (0-based, as produced by
`enumerate`).  `year` models `datetime.now().year`. -/
def mkCitation (year : Nat) (i : Nat) (item : CitationItem) : Citation :=
  let domain :=
    if (item.url.splitOn '/').length > 2 then (item.url.splitOn '/').getD 2 []
    else "Unknown".data
  { id := "source_".data ++ pyStrOfNat (i + 1)
    title := item.title
    url := item.url
    domain := domain
    apa_citation := domain ++ ". (".data ++ pyStrOfNat year ++ "). ".data ++
      item.title ++ ". Retrieved from ".data ++ item.url
    in_text := "(".data ++ domain ++ ", ".data ++ pyStrOfNat year ++ ")".data }

/-- Python `CitationGeneratorTool._run`.  `parse` models `json.loads` and
`dumps` models `json.dumps`. -/
def citationGenerator_run
    (parse : PyStr → Except PyStr (List CitationItem))
    (dumps : List Citation → PyStr)
    (year : Nat) (research_data : PyStr) : PyStr :=
  match parse research_data with
  | Except.error e => "Citation generation failed: ".data ++ e
  | Except.ok research_items =>
    dumps ((research_items.take 10).mapIdx (mkCitation year))

/-! ### AcademicWritingTool (src/app.py lines 132-196) -/

/-- The academic transition patterns counted by `AcademicWritingTool._run`. -/
def academicPatterns : List PyStr :=
  ["furthermore".data, "moreover".data, "additionally".data,
   "consequently".data, "therefore".data, "thus".data, "hence".data,
   "accordingly".data, "subsequently".data]

/-- One entry of `level_guidelines`.  In the Python source each value is
written as a subtraction (`60-80`, `12-14`, ...), so each field is a single
(negative) integer, not a range. -/
structure Guidelines where
  target_flesch : Int
  target_grade : Int
  sentence_length : Int

/-- The `level_guidelines` dictionary with its `.get(..., masters)` default. -/
def levelGuidelines (academic_level : PyStr) : Guidelines :=
  if academic_level = "undergraduate".data then
    { target_flesch := 60 - 80, target_grade := 12 - 14, sentence_length := 15 - 25 }
  else if academic_level = "masters".data then
    { target_flesch := 50 - 70, target_grade := 14 - 16, sentence_length := 18 - 30 }
  else if academic_level = "phd".data then
    { target_flesch := 40 - 60, target_grade := 16 - 18, sentence_length := 20 - 35 }
  else
    { target_flesch := 50 - 70, target_grade := 14 - 16, sentence_length := 18 - 30 }

/-- Python subscripting applied to an `int` value, as in
`guidelines['target_flesch'][1]`: always raises a `TypeError`. -/
def intSubscript (_n : Int) (_i : Nat) : Except PyStr Int :=
  Except.error "\x27int\x27 object is not subscriptable".data

/-- The `analysis` dictionary of `AcademicWritingTool._run`. -/
structure Analysis where
  flesch_score : ℚ
  fk_grade : ℚ
  avg_sentence_length : ℚ
  academic_patterns_used : Nat
  target_guidelines : Guidelines
  suggestions : List PyStr

/-- The try-block body of `AcademicWritingTool._run`.  `flesch` and `fk`
model the `textstat` metric calls (which may raise); the subscript
operations on the integer guideline values raise a `TypeError`, exactly as
in Python. -/
def academicWriting_body
    (flesch fk : PyStr → Except PyStr ℚ)
    (text academic_level : PyStr) : Except PyStr Analysis := do
  let flesch_score ← flesch text
  let fk_grade ← fk text
  let sentences := text.splitOn '.'
  let sentence_lengths :=
    (sentences.filter (fun s => pyStripNonempty s)).map (fun s => (pySplitWs s).length)
  let avg_sentence_length : ℚ :=
    (sentence_lengths.sum : ℚ) / ((max sentence_lengths.length 1 : Nat) : ℚ)
  let pattern_usage :=
    (academicPatterns.filter (fun p => decide (p <:+: pyLower text))).length
  let guidelines := levelGuidelines academic_level
  let base : Analysis :=
    { flesch_score := flesch_score, fk_grade := fk_grade,
      avg_sentence_length := avg_sentence_length,
      academic_patterns_used := pattern_usage,
      target_guidelines := guidelines, suggestions := [] }
  let hi ← intSubscript guidelines.target_flesch 1
  let sug1 := if flesch_score > (hi : ℚ) then
      base.suggestions ++ ["Consider more complex sentence structures for academic tone".data]
    else base.suggestions
  let lo ← intSubscript guidelines.sentence_length 0
  let sug2 := if avg_sentence_length < (lo : ℚ) then
      sug1 ++ ["Use longer, more detailed sentences".data]
    else sug1
  let sug3 := if pattern_usage < 3 then
      sug2 ++ ["Include more academic transition phrases".data]
    else sug2
  pure { base with suggestions := sug3 }

/-- Python `AcademicWritingTool._run`. -/
def academicWriting_run
    (flesch fk : PyStr → Except PyStr ℚ)
    (dumps : Analysis → PyStr)
    (text academic_level : PyStr) : PyStr :=
  match academicWriting_body flesch fk text academic_level with
  | Except.error e => "Academic analysis failed: ".data ++ e
  | Except.ok analysis => dumps analysis

/-! ### BuiltInLLM (src/app.py lines 293-336) -/

/-- The state built by `BuiltInLLM.__init__`: the key attribute and the
process environment after `os.environ["GROQ_API_KEY"] = self.api_key`. -/
structure LLMState where
  api_key : PyStr
  env : PyStr → Option PyStr

/-- Python `BuiltInLLM.__init__`, given the process environment before the
constructor runs.  The key is the constant `"API_KEY"` written in the
source; the constructor writes it into the environment. -/
def builtInLLM_init (env : PyStr → Option PyStr) : LLMState :=
  let api_key := "API_KEY".data
  { api_key := api_key
    env := fun name => if name = "GROQ_API_KEY".data then some api_key else env name }

/-- The completion request assembled by `BuiltInLLM._call`. -/
structure LLMRequest where
  model : PyStr
  system_message : PyStr
  user_message : PyStr
  max_tokens : Nat
  api_key : PyStr

/-- Python `BuiltInLLM._call`: truncate prompts over 1500 words, then call
`litellm.completion` with `api_key=self.api_key`. -/
def builtInLLM_call (st : LLMState) (prompt : PyStr) : LLMRequest :=
  let prompt2 :=
    if (pySplitWs prompt).length > 1500 then
      (List.intercalate " ".data ((pySplitWs prompt).take 1500)) ++ "...".data
    else prompt
  { model := "groq/llama-3.3-70b-versatile".data
    system_message := "You are an expert academic writer who creates sophisticated, well-researched thesis documents that sound completely human-written. You avoid AI patterns and create authentic academic content with proper citations and natural flow.".data
    user_message := prompt2
    max_tokens := 2500
    api_key := st.api_key }

/-! ### Agents, tasks and crew (src/app.py lines 339-493) -/

/-- A CrewAI agent as configured by `create_thesis_agents`. -/
structure AgentSpec where
  role : PyStr
  goal : PyStr
  backstory : PyStr
  tools : List PyStr
  allow_delegation : Bool
  llm : LLMState

/-- Python `create_thesis_agents`. -/
def create_thesis_agents (llm : LLMState) : AgentSpec × AgentSpec × AgentSpec :=
  ({ role := "Academic Research Specialist".data
     goal := "Conduct comprehensive academic research and gather credible sources".data
     backstory := "You are a PhD-level researcher with expertise in finding and analyzing academic sources. You understand how to identify credible information and synthesize research findings.".data
     tools := ["academic_research".data]
     allow_delegation := false
     llm := llm },
   { role := "Academic Thesis Writer".data
     goal := "Write sophisticated thesis documents that sound completely human-written".data
     backstory := "You are an experienced academic writer who specializes in creating thesis documents. You know how to write in a way that sounds natural and scholarly, avoiding AI patterns while maintaining academic rigor.".data
     tools := ["academic_writing".data, "citation_generator".data]
     allow_delegation := false
     llm := llm },
   { role := "Academic Writing Humanizer".data
     goal := "Make academic writing sound completely human and undetectable".data
     backstory := "You are an expert editor who specializes in making academic content sound natural and human-written. You know how to eliminate AI patterns and create authentic scholarly writing.".data
     tools := ["humanization_tool".data]
     allow_delegation := false
     llm := llm })

/-- A CrewAI task as configured by `create_thesis_tasks`. -/
inductive ThesisTask where
  | mk (description : PyStr) (agent : AgentSpec) (expected_output : PyStr)
      (dependencies : List ThesisTask)

def ThesisTask.description : ThesisTask → PyStr
  | ThesisTask.mk d _ _ _ => d

def ThesisTask.agent : ThesisTask → AgentSpec
  | ThesisTask.mk _ a _ _ => a

def ThesisTask.expected_output : ThesisTask → PyStr
  | ThesisTask.mk _ _ e _ => e

def ThesisTask.dependencies : ThesisTask → List ThesisTask
  | ThesisTask.mk _ _ _ ds => ds

/-- The f-string of `research_task.description`. -/
def researchTaskDescription (topic document_type academic_level research_areas : PyStr)
    (word_count : Nat) : PyStr :=
  "\n        Conduct comprehensive academic research for a ".data ++ document_type ++
  " on \"".data ++ topic ++
  "\".\n        \n        Research Areas: ".data ++ research_areas ++
  "\n        Academic Level: ".data ++ academic_level ++
  "\n        Target Length: ".data ++ pyStrOfNat word_count ++
  " words\n        \n        Requirements:\n        - Find 10-15 credible academic sources\n        - Gather recent research and developments\n        - Identify key theories and methodologies\n        - Note different perspectives and debates\n        - Focus on peer-reviewed and scholarly sources\n        - Include both theoretical and practical aspects\n        \n        Provide a detailed research summary with key findings, methodologies, and source analysis.\n        ".data

/-- The f-string of `thesis_task.description`. -/
def thesisTaskDescription (topic document_type academic_level research_areas : PyStr)
    (word_count : Nat) : PyStr :=
  "\n        Write a complete ".data ++ document_type ++
  " on \"".data ++ topic ++
  "\" that sounds completely human-written.\n        \n        Academic Level: ".data ++ academic_level ++
  "\n        Target Length: ".data ++ pyStrOfNat word_count ++
  " words\n        Research Areas: ".data ++ research_areas ++
  "\n        \n        Requirements:\n        - Use the comprehensive research provided\n        - Write in proper academic style for ".data ++ academic_level ++
  " level\n        - Include proper citations and references\n        - Create logical structure with introduction, body, and conclusion\n        - Use varied sentence structures and academic vocabulary\n        - Include critical analysis and original insights\n        - Maintain scholarly tone while sounding natural\n        - Avoid AI-like patterns and formal robotic language\n        - Include methodology, findings, and implications\n        - Make it engaging and intellectually rigorous\n        \n        Structure:\n        1. Introduction and background\n        2. Literature review\n        3. Methodology\n        4. Analysis and findings\n        5. Discussion and implications\n        6. Conclusion and recommendations\n        \n        Important: Write as if you\x27re a human academic expert sharing original research and insights.\n        ".data

/-- The fixed text of `humanization_task.description`. -/
def humanizationTaskDescription : PyStr :=
  "\n        Polish and humanize the thesis document to make it completely undetectable as AI-written.\n        \n        Requirements:\n        - Remove any remaining AI patterns\n        - Improve natural academic flow\n        - Add authentic human writing touches\n        - Ensure varied sentence structures\n        - Make transitions feel natural and scholarly\n        - Add subtle personal insights and critical thinking\n        - Maintain academic rigor while sounding human\n        - Improve readability without losing sophistication\n        - Ensure proper citation integration\n        - Make it sound like expert human academic writing\n        \n        Focus on making it indistinguishable from high-quality human academic writing.\n        ".data

/-- The `research_task` built by `create_thesis_tasks`. -/
def researchTask (topic document_type academic_level research_areas : PyStr)
    (word_count : Nat) (agents : AgentSpec × AgentSpec × AgentSpec) : ThesisTask :=
  ThesisTask.mk
    (researchTaskDescription topic document_type academic_level research_areas word_count)
    agents.1
    "Comprehensive research summary with credible sources and key insights".data
    []

/-- The `thesis_task` built by `create_thesis_tasks`; it declares
`research_task` as its dependency. -/
def thesisTask (topic document_type academic_level research_areas : PyStr)
    (word_count : Nat) (agents : AgentSpec × AgentSpec × AgentSpec) : ThesisTask :=
  ThesisTask.mk
    (thesisTaskDescription topic document_type academic_level research_areas word_count)
    agents.2.1
    "Complete academic thesis document with proper structure and citations".data
    [researchTask topic document_type academic_level research_areas word_count agents]

/-- The `humanization_task` built by `create_thesis_tasks`; it declares
`thesis_task` as its dependency. -/
def humanizationTask (topic document_type academic_level research_areas : PyStr)
    (word_count : Nat) (agents : AgentSpec × AgentSpec × AgentSpec) : ThesisTask :=
  ThesisTask.mk
    humanizationTaskDescription
    agents.2.2
    "Final polished human-sounding academic thesis document".data
    [thesisTask topic document_type academic_level research_areas word_count agents]

/-- Python `create_thesis_tasks`: the returned task list. -/
def create_thesis_tasks (topic document_type academic_level research_areas : PyStr)
    (word_count : Nat) (agents : AgentSpec × AgentSpec × AgentSpec) : List ThesisTask :=
  [researchTask topic document_type academic_level research_areas word_count agents,
   thesisTask topic document_type academic_level research_areas word_count agents,
   humanizationTask topic document_type academic_level research_areas word_count agents]

/-- The CrewAI execution mode. -/
inductive ProcessKind where
  | sequential
  | hierarchical

/-- The crew assembled by `run_thesis_writer`. -/
structure CrewSpec where
  agents : List AgentSpec
  tasks : List ThesisTask
  process : ProcessKind
  verbose : Bool

/-- Python `run_thesis_writer`: initialize the LLM, create the agents and
the three tasks, and assemble the sequential crew that is then kicked off.
`env` is the process environment seen by `BuiltInLLM.__init__`. -/
def run_thesis_writer (env : PyStr → Option PyStr)
    (topic document_type academic_level research_areas : PyStr)
    (word_count : Nat) : CrewSpec :=
  let llm := builtInLLM_init env
  let agents := create_thesis_agents llm
  let tasks := create_thesis_tasks topic document_type academic_level research_areas
    word_count agents
  { agents := [agents.1, agents.2.1, agents.2.2]
    tasks := tasks
    process := ProcessKind.sequential
    verbose := true }

/-! ### Specification-side definitions and concrete instances -/

/-- The specification's pointwise description of the humanization pass: the
sentence at index `i` (of `total` period-delimited sentences) receives a
variation phrase when `i` is congruent to 1 mod 3 and the sentence is
non-empty, receives a personal-insight phrase when `i = 2` and there are
more than 5 sentences, and is otherwise untouched. -/
def humanizeSpecAt (chooseVar : Nat → Nat) (chooseIns : Nat) (total : Nat)
    (i : Nat) (s : PyStr) : PyStr :=
  if i % 3 = 1 ∧ pyStripNonempty s then
    " ".data ++ pickFrom variations (chooseVar i) ++ " ".data ++ pyLstrip s
  else if i = 2 ∧ total > 5 then
    " ".data ++ pickFrom personalInsights chooseIns ++ " ".data ++ pyLstrip s
  else s

/-- The specification's description of the whole humanization transform:
replace the eight fixed patterns in their listed order, split into
period-delimited sentences, transform each sentence pointwise by its index,
and rejoin with periods. -/
def humanizeAsSpecified (text : PyStr) (chooseVar : Nat → Nat) (chooseIns : Nat) : PyStr :=
  let sentences := (applyReplacements text).splitOn '.'
  List.intercalate ['.']
    (List.ofFn fun i : Fin sentences.length =>
      humanizeSpecAt chooseVar chooseIns sentences.length i (sentences.get i))

/-- A concrete environment that carries a `GROQ_API_KEY` value. -/
def env0 : PyStr → Option PyStr := fun name =>
  if name = "GROQ_API_KEY".data then some "key-from-environment".data else none

/-- A concrete search oracle returning one fixed result for every query. -/
def sampleSearch : PyStr → Nat → Except PyStr (List SearchResult) := fun _ _ =>
  Except.ok
    [{ title := "AI overview".data
       body := "machine learning research overview".data
       href := "https://example.org/a".data }]

/-! ### Helper lemmas -/

lemma infix_app_right (l3 : PyStr) {t l2 : PyStr} (h : t <:+: l2) : t <:+: l2 ++ l3 :=
  h.trans (List.prefix_append l2 l3).isInfix

lemma infix_suffix (p t : PyStr) : t <:+: p ++ t :=
  (List.suffix_append p t).isInfix

/-! ### Claims about the relevance score -/

/-- C2: for every content string and topic string, the research relevance
score equals the keyword overlap fraction: the number of distinct
lowercased whitespace-separated words shared by content and topic, divided
by the number of distinct lowercased words of the topic, and it is 0
whenever the topic word set or the content word set is empty. -/
theorem calculateRelevance_eq_overlap_fraction (content topic : PyStr) :
    calculateRelevance content topic =
      if (pySplitWs (pyLower topic)).toFinset = ∅ ∨
          (pySplitWs (pyLower content)).toFinset = ∅ then 0
      else (((pySplitWs (pyLower topic)).toFinset ∩
              (pySplitWs (pyLower content)).toFinset).card : ℚ) /
            ((pySplitWs (pyLower topic)).toFinset.card : ℚ) := rfl

/-- C8: the relevance score always lies in [0, 1]; when the topic word set
is empty the guarded branch returns 0 before any division, and otherwise
the divisor (the number of distinct topic words) is positive and the
intersection is a subset of the topic word set. -/
theorem calculateRelevance_bounds (content topic : PyStr) :
    0 ≤ calculateRelevance content topic ∧
    calculateRelevance content topic ≤ 1 ∧
    ((pySplitWs (pyLower topic)).toFinset = ∅ → calculateRelevance content topic = 0) ∧
    ((pySplitWs (pyLower topic)).toFinset ≠ ∅ →
      0 < ((pySplitWs (pyLower topic)).toFinset.card : ℚ) ∧
      (pySplitWs (pyLower topic)).toFinset ∩ (pySplitWs (pyLower content)).toFinset ⊆
        (pySplitWs (pyLower topic)).toFinset) := by
  have hsub : (pySplitWs (pyLower topic)).toFinset ∩ (pySplitWs (pyLower content)).toFinset ⊆
      (pySplitWs (pyLower topic)).toFinset := Finset.inter_subset_left
  have hpos : (pySplitWs (pyLower topic)).toFinset ≠ ∅ →
      0 < ((pySplitWs (pyLower topic)).toFinset.card : ℚ) := by
    intro hT
    have : 0 < (pySplitWs (pyLower topic)).toFinset.card :=
      Finset.card_pos.mpr (Finset.nonempty_iff_ne_empty.mpr hT)
    exact_mod_cast this
  have hunf : calculateRelevance content topic =
      if (pySplitWs (pyLower topic)).toFinset = ∅ ∨
          (pySplitWs (pyLower content)).toFinset = ∅ then 0
      else (((pySplitWs (pyLower topic)).toFinset ∩
              (pySplitWs (pyLower content)).toFinset).card : ℚ) /
            ((pySplitWs (pyLower topic)).toFinset.card : ℚ) := rfl
  rw [hunf]
  by_cases h : (pySplitWs (pyLower topic)).toFinset = ∅ ∨
      (pySplitWs (pyLower content)).toFinset = ∅
  · rw [if_pos h]
    exact ⟨le_refl 0, zero_le_one, fun _ => rfl, fun hT => ⟨hpos hT, hsub⟩⟩
  · rw [if_neg h]
    have hT : (pySplitWs (pyLower topic)).toFinset ≠ ∅ := fun he => h (Or.inl he)
    have hcardpos := hpos hT
    refine ⟨div_nonneg (Nat.cast_nonneg _) (Nat.cast_nonneg _), ?_, ?_, fun hT2 => ⟨hpos hT2, hsub⟩⟩
    · rw [div_le_one hcardpos]
      exact_mod_cast Finset.card_le_card hsub
    · intro he
      exact absurd (Or.inl he) h

/-- Instantiation of `calculateRelevance_bounds` at a concrete content and
topic. -/
theorem calculateRelevance_bounds_witness :
    0 ≤ calculateRelevance "machine learning research".data "machine learning".data ∧
    calculateRelevance "machine learning research".data "machine learning".data ≤ 1 :=
  ⟨(calculateRelevance_bounds "machine learning research".data "machine learning".data).1,
   (calculateRelevance_bounds "machine learning research".data "machine learning".data).2.1⟩

/-! ### Claims about the task pipeline -/

/-- C1: every invocation of `run_thesis_writer` builds exactly the three
tasks research, write, humanize in that order, executed by a sequential
crew; the write task declares the research task as its dependency and the
humanize task declares the write task as its dependency. -/
theorem run_thesis_writer_pipeline (env : PyStr → Option PyStr)
    (topic document_type academic_level research_areas : PyStr) (word_count : Nat) :
    (run_thesis_writer env topic document_type academic_level research_areas word_count).tasks =
      [researchTask topic document_type academic_level research_areas word_count
        (create_thesis_agents (builtInLLM_init env)),
       thesisTask topic document_type academic_level research_areas word_count
        (create_thesis_agents (builtInLLM_init env)),
       humanizationTask topic document_type academic_level research_areas word_count
        (create_thesis_agents (builtInLLM_init env))] ∧
    (thesisTask topic document_type academic_level research_areas word_count
        (create_thesis_agents (builtInLLM_init env))).dependencies =
      [researchTask topic document_type academic_level research_areas word_count
        (create_thesis_agents (builtInLLM_init env))] ∧
    (humanizationTask topic document_type academic_level research_areas word_count
        (create_thesis_agents (builtInLLM_init env))).dependencies =
      [thesisTask topic document_type academic_level research_areas word_count
        (create_thesis_agents (builtInLLM_init env))] ∧
    (researchTask topic document_type academic_level research_areas word_count
        (create_thesis_agents (builtInLLM_init env))).agent.role =
      "Academic Research Specialist".data ∧
    (thesisTask topic document_type academic_level research_areas word_count
        (create_thesis_agents (builtInLLM_init env))).agent.role =
      "Academic Thesis Writer".data ∧
    (humanizationTask topic document_type academic_level research_areas word_count
        (create_thesis_agents (builtInLLM_init env))).agent.role =
      "Academic Writing Humanizer".data ∧
    (run_thesis_writer env topic document_type academic_level research_areas
        word_count).process = ProcessKind.sequential :=
  ⟨rfl, rfl, rfl, rfl, rfl, rfl, rfl⟩

/-- C6 counterexample: no invocation of the pipeline runner performs a
single direct call; the task list always has three elements, never one. -/
theorem no_single_call_variant :
    ¬ ∃ (env : PyStr → Option PyStr)
        (topic document_type academic_level research_areas : PyStr) (word_count : Nat),
        (run_thesis_writer env topic document_type academic_level research_areas
          word_count).tasks.length = 1 := by
  rintro ⟨env, topic, document_type, academic_level, research_areas, word_count, h⟩
  simp [run_thesis_writer, create_thesis_tasks] at h

/-- C6 amended: the pipeline runner has no direct single-call variant;
every execution builds the three-stage sequential crew. -/
theorem run_thesis_writer_always_three_tasks (env : PyStr → Option PyStr)
    (topic document_type academic_level research_areas : PyStr) (word_count : Nat) :
    (run_thesis_writer env topic document_type academic_level research_areas
      word_count).tasks.length = 3 ∧
    (run_thesis_writer env topic document_type academic_level research_areas
      word_count).process = ProcessKind.sequential :=
  ⟨rfl, rfl⟩

/-! ### Claims about the API key -/

/-- C7 counterexample: with an environment that carries
`GROQ_API_KEY=key-from-environment`, the constructed client does not use
the environment's value; it uses the constant `"API_KEY"` embedded in the
source, and it overwrites the environment variable with that constant. -/
theorem api_key_not_read_from_environment :
    env0 "GROQ_API_KEY".data = some "key-from-environment".data ∧
    (builtInLLM_init env0).api_key ≠ "key-from-environment".data ∧
    (builtInLLM_init env0).api_key = "API_KEY".data ∧
    (builtInLLM_init env0).env "GROQ_API_KEY".data = some "API_KEY".data := by
  refine ⟨by decide, by decide, rfl, by decide⟩

/-- C7 amended: for every starting environment, the key attribute set by
`BuiltInLLM.__init__` is the source constant `"API_KEY"`; the constructor
writes that constant into the `GROQ_API_KEY` environment variable, and
every request assembled by `BuiltInLLM._call` carries that constant as its
key. -/
theorem api_key_is_source_constant (env : PyStr → Option PyStr) (prompt : PyStr) :
    (builtInLLM_init env).api_key = "API_KEY".data ∧
    (builtInLLM_init env).env "GROQ_API_KEY".data = some "API_KEY".data ∧
    (builtInLLM_call (builtInLLM_init env) prompt).api_key = "API_KEY".data := by
  refine ⟨rfl, ?_, rfl⟩
  simp [builtInLLM_init]

/-! ### Claim about exception handling in the tools -/

/-- C10: none of the four tools propagates an exception: each `_run`
either returns its failure string `"<Stage> failed: <message>"` or returns
its normal result (the humanization body cannot raise at all). -/
theorem tools_never_propagate_exceptions :
    (∀ (ctx : Except PyStr Unit)
       (search : PyStr → Nat → Except PyStr (List SearchResult))
       (dumps : List ResearchEntry → PyStr) (topic research_areas : PyStr),
      (∃ e, academicResearch_run ctx search dumps topic research_areas =
        "Research failed: ".data ++ e) ∨
      academicResearch_run ctx search dumps topic research_areas =
        dumps (academicResearch_entries search topic)) ∧
    (∀ (parse : PyStr → Except PyStr (List CitationItem))
       (dumps : List Citation → PyStr) (year : Nat) (research_data : PyStr),
      (∃ e, citationGenerator_run parse dumps year research_data =
        "Citation generation failed: ".data ++ e) ∨
      (∃ research_items, parse research_data = Except.ok research_items ∧
        citationGenerator_run parse dumps year research_data =
          dumps ((research_items.take 10).mapIdx (mkCitation year)))) ∧
    (∀ (flesch fk : PyStr → Except PyStr ℚ) (dumps : Analysis → PyStr)
       (text academic_level : PyStr),
      (∃ e, academicWriting_run flesch fk dumps text academic_level =
        "Academic analysis failed: ".data ++ e) ∨
      (∃ analysis, academicWriting_run flesch fk dumps text academic_level =
        dumps analysis)) ∧
    (∀ (text : PyStr) (chooseVar : Nat → Nat) (chooseIns : Nat),
      humanization_run text chooseVar chooseIns = humanizeRun text chooseVar chooseIns) := by
  refine ⟨?_, ?_, ?_, fun _ _ _ => rfl⟩
  · intro ctx search dumps topic research_areas
    cases ctx with
    | error e => exact Or.inl ⟨e, rfl⟩
    | ok u => exact Or.inr rfl
  · intro parse dumps year research_data
    cases h : parse research_data with
    | error e =>
      exact Or.inl ⟨e, by simp [citationGenerator_run, h]⟩
    | ok research_items =>
      exact Or.inr ⟨research_items, rfl, by simp [citationGenerator_run, h]⟩
  · intro flesch fk dumps text academic_level
    cases h : academicWriting_body flesch fk text academic_level with
    | error e => exact Or.inl ⟨e, by simp [academicWriting_run, h]⟩
    | ok analysis => exact Or.inr ⟨analysis, by simp [academicWriting_run, h]⟩

/-! ### Claim about the prompt templates -/

set_option maxRecDepth 4000 in
/-- C5: the prompt builder produces the research and write task
descriptions by string templating, and each of the two description strings
contains the topic, the document type, the academic level, the research
areas, and the word count verbatim as substrings. -/
theorem task_descriptions_contain_fields
    (topic document_type academic_level research_areas : PyStr) (word_count : Nat)
    (agents : AgentSpec × AgentSpec × AgentSpec) :
    (researchTask topic document_type academic_level research_areas word_count
      agents).description =
        researchTaskDescription topic document_type academic_level research_areas word_count ∧
    (thesisTask topic document_type academic_level research_areas word_count
      agents).description =
        thesisTaskDescription topic document_type academic_level research_areas word_count ∧
    topic <:+:
      researchTaskDescription topic document_type academic_level research_areas word_count ∧
    document_type <:+:
      researchTaskDescription topic document_type academic_level research_areas word_count ∧
    academic_level <:+:
      researchTaskDescription topic document_type academic_level research_areas word_count ∧
    research_areas <:+:
      researchTaskDescription topic document_type academic_level research_areas word_count ∧
    pyStrOfNat word_count <:+:
      researchTaskDescription topic document_type academic_level research_areas word_count ∧
    topic <:+:
      thesisTaskDescription topic document_type academic_level research_areas word_count ∧
    document_type <:+:
      thesisTaskDescription topic document_type academic_level research_areas word_count ∧
    academic_level <:+:
      thesisTaskDescription topic document_type academic_level research_areas word_count ∧
    research_areas <:+:
      thesisTaskDescription topic document_type academic_level research_areas word_count ∧
    pyStrOfNat word_count <:+:
      thesisTaskDescription topic document_type academic_level research_areas word_count := by
  refine ⟨rfl, rfl, ?_, ?_, ?_, ?_, ?_, ?_, ?_, ?_, ?_, ?_⟩ <;>
    simp only [researchTaskDescription, thesisTaskDescription]
  · exact infix_app_right _ (infix_app_right _ (infix_app_right _ (infix_app_right _ (infix_app_right _ (infix_app_right _ (infix_app_right _ (infix_suffix _ _)))))))
  · exact infix_app_right _ (infix_app_right _ (infix_app_right _ (infix_app_right _ (infix_app_right _ (infix_app_right _ (infix_app_right _ (infix_app_right _ (infix_app_right _ (infix_suffix _ _)))))))))
  · exact infix_app_right _ (infix_app_right _ (infix_app_right _ (infix_suffix _ _)))
  · exact infix_app_right _ (infix_app_right _ (infix_app_right _ (infix_app_right _ (infix_app_right _ (infix_suffix _ _)))))
  · exact infix_app_right _ (infix_suffix _ _)
  · exact infix_app_right _ (infix_app_right _ (infix_app_right _ (infix_app_right _ (infix_app_right _ (infix_app_right _ (infix_app_right _ (infix_app_right _ (infix_app_right _ (infix_suffix _ _)))))))))
  · exact infix_app_right _ (infix_app_right _ (infix_app_right _ (infix_app_right _ (infix_app_right _ (infix_app_right _ (infix_app_right _ (infix_app_right _ (infix_app_right _ (infix_app_right _ (infix_app_right _ (infix_suffix _ _)))))))))))
  · exact infix_app_right _ (infix_app_right _ (infix_app_right _ (infix_app_right _ (infix_app_right _ (infix_app_right _ (infix_app_right _ (infix_suffix _ _)))))))
  · exact infix_app_right _ (infix_app_right _ (infix_app_right _ (infix_suffix _ _)))
  · exact infix_app_right _ (infix_app_right _ (infix_app_right _ (infix_app_right _ (infix_app_right _ (infix_suffix _ _)))))

/-! ### Claim about the research pipeline -/

lemma removeDupsAux_spec : ∀ (l : List ResearchEntry) (seen : List PyStr),
    ((removeDupsAux seen l).map ResearchEntry.url).Nodup ∧
    ∀ e ∈ removeDupsAux seen l, e.url ∉ seen := by
  intro l
  induction l with
  | nil =>
    intro seen
    exact ⟨List.nodup_nil, by simp [removeDupsAux]⟩
  | cons x rest ih =>
    intro seen
    by_cases hx : x.url ∈ seen
    · simp only [removeDupsAux, if_pos hx]
      exact ⟨(ih seen).1, fun e he => (ih seen).2 e he⟩
    · simp only [removeDupsAux, if_neg hx]
      constructor
      · simp only [List.map_cons, List.nodup_cons]
        constructor
        · intro hmem
          obtain ⟨e, he, heq⟩ := List.mem_map.mp hmem
          exact (ih (x.url :: seen)).2 e he (heq ▸ List.mem_cons_self _ _)
        · exact (ih (x.url :: seen)).1
      · intro e he
        rcases List.mem_cons.mp he with h | h
        · exact h ▸ hx
        · exact fun hseen =>
            (ih (x.url :: seen)).2 e h (List.mem_cons_of_mem _ hseen)

lemma researchSortLe_trans : ∀ a b c : ResearchEntry,
    researchSortLe a b = true → researchSortLe b c = true → researchSortLe a c = true := by
  intro a b c hab hbc
  simp only [researchSortLe, decide_eq_true_eq] at *
  exact le_trans hbc hab

lemma researchSortLe_total : ∀ a b : ResearchEntry,
    (researchSortLe a b || researchSortLe b a) = true := by
  intro a b
  simp only [researchSortLe, Bool.or_eq_true, decide_eq_true_eq]
  exact le_total _ _

lemma academicResearch_all_foldl_length
    (search : PyStr → Nat → Except PyStr (List SearchResult)) (topic : PyStr)
    (hsearch : ∀ q rs, search q 6 = Except.ok rs → rs.length ≤ 6) :
    ∀ (qs : List PyStr) (acc : List ResearchEntry),
    (qs.foldl
      (fun acc q =>
        match search q 6 with
        | Except.error _ => acc
        | Except.ok results => acc ++ results.map (mkEntry topic q)) acc).length ≤
      acc.length + 6 * qs.length := by
  intro qs
  induction qs with
  | nil => intro acc; simp
  | cons q rest ih =>
    intro acc
    rw [List.foldl_cons]
    cases h : search q 6 with
    | error e =>
      simp only [h]
      calc _ ≤ acc.length + 6 * rest.length := ih acc
      _ ≤ acc.length + 6 * (q :: rest).length := by simp only [List.length_cons]; omega
    | ok results =>
      simp only [h]
      have hlen := hsearch q results h
      calc _ ≤ (acc ++ results.map (mkEntry topic q)).length + 6 * rest.length := ih _
      _ ≤ acc.length + 6 * (q :: rest).length := by
        simp only [List.length_append, List.length_map, List.length_cons]
        omega

/-- C4: for every topic, the research step issues exactly the five fixed
query templates, collects at most 6 results per query (hence at most 30
entries in all), removes duplicate URLs, sorts by relevance score in
non-increasing order, returns at most 15 entries, and hands exactly that
list to `json.dumps` on the success path. -/
theorem research_pipeline_structure (topic : PyStr)
    (search : PyStr → Nat → Except PyStr (List SearchResult))
    (hsearch : ∀ q rs, search q 6 = Except.ok rs → rs.length ≤ 6) :
    searchQueries topic =
      [topic ++ " research studies".data,
       topic ++ " academic papers".data,
       topic ++ " recent developments".data,
       topic ++ " methodology".data,
       topic ++ " literature review".data] ∧
    (academicResearch_all search topic).length ≤ 30 ∧
    (academicResearch_entries search topic).length ≤ 15 ∧
    ((academicResearch_entries search topic).map ResearchEntry.url).Nodup ∧
    (academicResearch_entries search topic).Pairwise
      (fun a b => b.relevance_score ≤ a.relevance_score) ∧
    ∀ (dumps : List ResearchEntry → PyStr) (research_areas : PyStr),
      academicResearch_run (Except.ok ()) search dumps topic research_areas =
        dumps (academicResearch_entries search topic) := by
  refine ⟨rfl, ?_, ?_, ?_, ?_, fun _ _ => rfl⟩
  · have := academicResearch_all_foldl_length search topic hsearch (searchQueries topic) []
    simpa [academicResearch_all, searchQueries] using this
  · exact List.length_take_le _ _
  · have h1 : ((removeDuplicates (academicResearch_all search topic)).map
        ResearchEntry.url).Nodup :=
      (removeDupsAux_spec (academicResearch_all search topic) []).1
    have hperm := List.mergeSort_perm
      (removeDuplicates (academicResearch_all search topic)) researchSortLe
    have h2 : (((removeDuplicates (academicResearch_all search topic)).mergeSort
        researchSortLe).map ResearchEntry.url).Nodup :=
      ((hperm.map ResearchEntry.url).nodup_iff).mpr h1
    rw [academicResearch_entries, List.map_take]
    exact List.Nodup.sublist (List.take_sublist _ _) h2
  · have hs := List.sorted_mergeSort researchSortLe_trans researchSortLe_total
      (removeDuplicates (academicResearch_all search topic))
    have hp : ((removeDuplicates (academicResearch_all search topic)).mergeSort
        researchSortLe).Pairwise
        (fun a b => b.relevance_score ≤ a.relevance_score) :=
      hs.imp (fun h => by simpa [researchSortLe, decide_eq_true_eq] using h)
    rw [academicResearch_entries]
    exact hp.sublist (List.take_sublist _ _)

/-- Instantiation of `research_pipeline_structure` with a concrete search
oracle (which satisfies the `max_results` bound) and a concrete topic. -/
theorem research_pipeline_structure_witness :
    (∀ q rs, sampleSearch q 6 = Except.ok rs → rs.length ≤ 6) ∧
    (academicResearch_entries sampleSearch "machine learning".data).length ≤ 15 := by
  have hpf : ∀ q rs, sampleSearch q 6 = Except.ok rs → rs.length ≤ 6 := by
    intro q rs h
    simp only [sampleSearch, Except.ok.injEq] at h
    subst h
    decide
  exact ⟨hpf,
    (research_pipeline_structure "machine learning".data sampleSearch hpf).2.2.1⟩

/-! ### Claim about the period count of the humanizer -/

lemma count_replaceAllAux (pat rep : PyStr) (hp : pat.count '.' = 0)
    (hr : rep.count '.' = 0) :
    ∀ (fuel : Nat) (text : PyStr),
    (replaceAllAux pat rep fuel text).count '.' = text.count '.' := by
  intro fuel
  induction fuel with
  | zero =>
    intro text
    cases text with
    | nil => rfl
    | cons c rest => rfl
  | succ n ih =>
    intro text
    cases text with
    | nil => rfl
    | cons c rest =>
      simp only [replaceAllAux]
      by_cases hpre : pat.isPrefixOf (c :: rest)
      · rw [if_pos hpre, List.count_append, hr, ih]
        obtain ⟨t, ht⟩ := List.isPrefixOf_iff_prefix.mp hpre
        have hdrop : List.drop pat.length (c :: rest) = t := by
          rw [← ht]
          exact List.drop_left pat t
        rw [hdrop, ← ht, List.count_append, hp]
      · rw [if_neg hpre]
        simp only [List.count_cons, ih]

lemma count_replaceAll (pat rep text : PyStr) (hp : pat.count '.' = 0)
    (hr : rep.count '.' = 0) :
    (replaceAll pat rep text).count '.' = text.count '.' := by
  unfold replaceAll
  split
  · rfl
  · exact count_replaceAllAux pat rep hp hr _ _

lemma count_foldl_replaceAll :
    ∀ (ps : List (PyStr × PyStr)) (t : PyStr),
    (∀ p ∈ ps, p.1.count '.' = 0 ∧ p.2.count '.' = 0) →
    ((ps.foldl (fun acc pr => replaceAll pr.1 pr.2 acc) t).count '.') = t.count '.' := by
  intro ps
  induction ps with
  | nil => intro t _; rfl
  | cons p rest ih =>
    intro t hall
    rw [List.foldl_cons, ih _ (fun q hq => hall q (List.mem_cons_of_mem _ hq))]
    exact count_replaceAll _ _ _ (hall p (List.mem_cons_self _ _)).1
      (hall p (List.mem_cons_self _ _)).2

lemma count_applyReplacements (text : PyStr) :
    (applyReplacements text).count '.' = text.count '.' := by
  refine count_foldl_replaceAll _ text ?_
  decide

lemma count_pickFrom_zero (l : List PyStr) (k : Nat)
    (hl : ∀ p ∈ l, p.count '.' = 0) : (pickFrom l k).count '.' = 0 := by
  unfold pickFrom
  rw [List.getD_eq_getElem?_getD]
  cases h : l[k % l.length]? with
  | none => rfl
  | some p =>
    obtain ⟨hlt, hval⟩ := List.getElem?_eq_some.mp h
    simp only [Option.getD_some]
    exact hval ▸ hl _ (List.getElem_mem hlt)

lemma count_pyLstrip (s : PyStr) : (pyLstrip s).count '.' = s.count '.' := by
  unfold pyLstrip
  induction s with
  | nil => rfl
  | cons c rest ih =>
    rw [List.dropWhile_cons]
    by_cases h : c.isWhitespace
    · rw [if_pos h, ih, List.count_cons]
      have hne : c ≠ '.' := by
        intro he
        subst he
        exact absurd h (by decide)
      have hc : (c == '.') = false := beq_eq_false_iff_ne.mpr hne
      rw [hc]
      simp
    · rw [if_neg h]

lemma length_insertVariationsAux (cv : Nat → Nat) :
    ∀ (i : Nat) (l : List PyStr), (insertVariationsAux cv i l).length = l.length := by
  intro i l
  induction l generalizing i with
  | nil => rfl
  | cons s rest ih => simp [insertVariationsAux, ih]

lemma sum_counts_insertVariationsAux (cv : Nat → Nat) :
    ∀ (i : Nat) (l : List PyStr),
    ((insertVariationsAux cv i l).map (fun s => s.count '.')).sum =
      (l.map (fun s => s.count '.')).sum := by
  intro i l
  induction l generalizing i with
  | nil => rfl
  | cons s rest ih =>
    simp only [insertVariationsAux, List.map_cons, List.sum_cons, ih]
    congr 1
    split
    · simp only [List.count_append, count_pyLstrip]
      have h1 : (" ".data : PyStr).count '.' = 0 := by decide
      have h1b : List.count '.' [' '] = 0 := by decide
      have h2 := count_pickFrom_zero variations (cv i) (by decide)
      omega
    · rfl

lemma sum_counts_set :
    ∀ (l : List PyStr) (n : Nat) (x : PyStr), n < l.length →
    x.count '.' = (l.getD n []).count '.' →
    ((l.set n x).map (fun s => s.count '.')).sum =
      (l.map (fun s => s.count '.')).sum := by
  intro l
  induction l with
  | nil =>
    intro n x h
    simp at h
  | cons s rest ih =>
    intro n x hn hx
    cases n with
    | zero =>
      rw [List.set_cons_zero]
      simp only [List.getD_cons_zero] at hx
      simp only [List.map_cons, List.sum_cons, hx]
    | succ m =>
      rw [List.set_cons_succ]
      simp only [List.getD_cons_succ] at hx
      simp only [List.map_cons, List.sum_cons]
      rw [ih m x (by simpa using hn) hx]

lemma count_intercalate_dots :
    ∀ (parts : List PyStr), parts ≠ [] →
    (List.intercalate ['.'] parts).count '.' =
      parts.length - 1 + (parts.map (fun s => s.count '.')).sum := by
  intro parts
  induction parts with
  | nil => intro h; exact absurd rfl h
  | cons a rest ih =>
    intro _
    cases rest with
    | nil => simp [List.intercalate]
    | cons b tl =>
      have hstep : List.intercalate ['.'] (a :: b :: tl) =
          a ++ ['.'] ++ List.intercalate ['.'] (b :: tl) := by
        simp [List.intercalate, List.intersperse_cons_cons]
      rw [hstep, List.count_append, List.count_append, ih (List.cons_ne_nil _ _)]
      have hdot : (['.'] : PyStr).count '.' = 1 := by decide
      rw [hdot]
      simp only [List.map_cons, List.sum_cons, List.length_cons]
      omega

lemma splitOn_dot_ne_nil (l : PyStr) : l.splitOn '.' ≠ [] := by
  have h : l.splitOn '.' = List.splitOnP (fun c => c == '.') l := rfl
  rw [h]
  exact List.splitOnP_ne_nil _ _

/-- C9: for every input text and every outcome of the random choices, the
result of `HumanizationTool._run` contains exactly as many period
characters as the input: none of the replacement, variation or insight
phrases contains a period, and all insertions are prefixes rejoined with
the original separators. -/
theorem humanization_preserves_period_count (text : PyStr) (cv : Nat → Nat) (ci : Nat) :
    (humanizeRun text cv ci).count '.' = text.count '.' := by
  simp only [humanizeRun]
  set sentences := (applyReplacements text).splitOn '.' with hsent
  set m := insertVariations cv sentences with hm
  have hbase : (List.intercalate ['.'] sentences).count '.' =
      (applyReplacements text).count '.' := by
    rw [hsent, List.intercalate_splitOn]
  have hne : sentences ≠ [] := by
    rw [hsent]
    exact splitOn_dot_ne_nil _
  have hlenm : m.length = sentences.length := by
    rw [hm]
    exact length_insertVariationsAux cv 0 sentences
  have hsumm : (m.map (fun s => s.count '.')).sum =
      (sentences.map (fun s => s.count '.')).sum := by
    rw [hm]
    exact sum_counts_insertVariationsAux cv 0 sentences
  have hnem : m ≠ [] := by
    intro h0
    apply hne
    rw [h0] at hlenm
    exact (List.length_eq_zero.mp hlenm.symm)
  by_cases h5 : m.length > 5
  · rw [if_pos h5]
    have h2 : 2 < m.length := by omega
    have hxc : (" ".data ++ pickFrom personalInsights ci ++ " ".data ++
        pyLstrip (m.getD 2 [])).count '.' = (m.getD 2 []).count '.' := by
      simp only [List.count_append, count_pyLstrip]
      have h1 : (" ".data : PyStr).count '.' = 0 := by decide
      have h1b : List.count '.' [' '] = 0 := by decide
      have hp := count_pickFrom_zero personalInsights ci (by decide)
      omega
    have hsetne : ∀ y : PyStr, m.set 2 y ≠ [] := by
      intro y h0
      have hl := List.length_set m 2 y
      rw [h0] at hl
      simp only [List.length_nil] at hl
      omega
    rw [count_intercalate_dots _ (hsetne _), sum_counts_set m 2 _ h2 hxc, List.length_set,
      hlenm, hsumm, ← count_intercalate_dots sentences hne, hbase]
    exact count_applyReplacements text
  · rw [if_neg h5]
    rw [count_intercalate_dots _ hnem, hlenm, hsumm,
      ← count_intercalate_dots sentences hne, hbase]
    exact count_applyReplacements text

/-! ### Claim that the humanizer is exactly replacement plus insertion -/

lemma getElem?_insertVariationsAux (cv : Nat → Nat) :
    ∀ (i : Nat) (l : List PyStr) (n : Nat),
    (insertVariationsAux cv i l)[n]? =
      (l[n]?).map (fun s =>
        if (i + n) % 3 = 1 ∧ pyStripNonempty s then
          " ".data ++ pickFrom variations (cv (i + n)) ++ " ".data ++ pyLstrip s
        else s) := by
  intro i l
  induction l generalizing i with
  | nil => intro n; simp [insertVariationsAux]
  | cons s rest ih =>
    intro n
    cases n with
    | zero => simp [insertVariationsAux]
    | succ k =>
      simp only [insertVariationsAux, List.getElem?_cons_succ]
      rw [ih (i + 1) k]
      have harith : i + 1 + k = i + (k + 1) := by omega
      rw [harith]

set_option maxHeartbeats 1000000 in
/-- C3: the humanization pass is exactly the composite the specification
describes: replace the eight fixed AI-pattern phrases by their fixed
counterparts in the listed order, then insert a chosen variation phrase at
the start of each non-empty sentence at indices 1, 4, 7, ..., insert a
chosen personal-insight phrase at the start of sentence index 2 when there
are more than 5 sentences, and rejoin with periods; no other
transformation is applied. -/
theorem humanization_matches_specification (text : PyStr) (cv : Nat → Nat) (ci : Nat) :
    humanizeRun text cv ci = humanizeAsSpecified text cv ci := by
  simp only [humanizeRun, humanizeAsSpecified]
  set sentences := (applyReplacements text).splitOn '.' with hsent
  set m := insertVariations cv sentences with hm
  have hlenm : m.length = sentences.length := by
    rw [hm]
    exact length_insertVariationsAux cv 0 sentences
  refine congrArg (List.intercalate ['.']) ?_
  apply List.ext_getElem?
  intro n
  have hmn : m[n]? = (sentences[n]?).map (fun s =>
      if n % 3 = 1 ∧ pyStripNonempty s then
        " ".data ++ pickFrom variations (cv n) ++ " ".data ++ pyLstrip s
      else s) := by
    rw [hm]
    have h0 := getElem?_insertVariationsAux cv 0 sentences n
    simpa using h0
  rw [List.getElem?_ofFn]
  by_cases h5 : m.length > 5
  · rw [if_pos h5]
    rw [List.getElem?_set]
    by_cases hn2 : 2 = n
    · subst hn2
      have h2m : 2 < m.length := by omega
      have h2s : 2 < sentences.length := by omega
      rw [if_pos rfl, if_pos h2m]
      have hget : m.getD 2 [] = sentences.get ⟨2, h2s⟩ := by
        rw [List.getD_eq_getElem?_getD, hmn, List.getElem?_eq_getElem h2s]
        simp
      rw [hget]
      have hs5 : sentences.length > 5 := by omega
      simp [List.ofFnNthVal, h2s, humanizeSpecAt, hs5]
    · rw [if_neg hn2, hmn]
      by_cases hns : n < sentences.length
      · rw [List.getElem?_eq_getElem hns]
        have hval : humanizeSpecAt cv ci sentences.length n sentences[n] =
            if n % 3 = 1 ∧ pyStripNonempty sentences[n] then
              " ".data ++ pickFrom variations (cv n) ++ " ".data ++
                pyLstrip sentences[n]
            else sentences[n] := by
          unfold humanizeSpecAt
          by_cases hc : n % 3 = 1 ∧ pyStripNonempty sentences[n]
          · rw [if_pos hc, if_pos hc]
          · rw [if_neg hc, if_neg hc, if_neg (fun hh => hn2 hh.1.symm)]
        simp [List.ofFnNthVal, hns, hval]
      · rw [List.getElem?_eq_none (by omega)]
        simp [List.ofFnNthVal, hns]
  · rw [if_neg h5, hmn]
    by_cases hns : n < sentences.length
    · rw [List.getElem?_eq_getElem hns]
      have hns5 : ¬ sentences.length > 5 := by omega
      have hval : humanizeSpecAt cv ci sentences.length n sentences[n] =
          if n % 3 = 1 ∧ pyStripNonempty sentences[n] then
            " ".data ++ pickFrom variations (cv n) ++ " ".data ++
              pyLstrip sentences[n]
          else sentences[n] := by
        unfold humanizeSpecAt
        by_cases hc : n % 3 = 1 ∧ pyStripNonempty sentences[n]
        · rw [if_pos hc, if_pos hc]
        · rw [if_neg hc, if_neg hc, if_neg (fun hh => hns5 hh.2)]
      simp [List.ofFnNthVal, hns, hval]
    · rw [List.getElem?_eq_none (by omega)]
      simp [List.ofFnNthVal, hns]
